import Mathlib

/-!
Verification development for the CustomCourseGenerator repository.

The repository orchestrates LLM calls to build a structured course document.
This file gives a shallow embedding of the pure parts of the pipeline:

* `jsonLoads` models Python's `json.loads` on the subset of JSON actually
  exchanged by the pipeline (null/true/false, integers, strings without
  escape sequences, arrays, objects); `literalEval` models
  `ast.literal_eval` on the analogous Python-literal subset (additionally
  accepting single-quoted strings and the `True` / `False` / `None`
  spellings).  Floats and string escapes are outside the modelled subset.
* `parse_json_main` embeds `parse_json` / `json_maker_bot` from `main.py`
  (lines 54-106): direct parse, fence stripping, greedy regex salvage
  `re.search(r'(\{.*\})', text, re.DOTALL)`, then one repair call whose
  second failure is swallowed into an empty dict.
* `parse_json_ma` embeds `parse_json` / `json_maker_bot` from
  `enhanced_coursegen_multiagent.py` (lines 367-405): direct parse, fence
  stripping, one repair call, `ast.literal_eval`, truthiness check and a
  `json.loads(json.dumps(...))` round trip; a failing `literal_eval`
  propagates as an exception.
* `State` and the `*_update` functions embed the langgraph stage functions
  of `enhanced_coursegen_multiagent.py`; the external model invocation of
  each stage is abstracted as the stage's parsed output passed in as an
  argument.  The `messages` chat-transcript channel is omitted: it is an
  append-only log that no claim concerns.
* `generate_course_async` embeds the sequential driver of `main.py`
  (lines 656-794) with every stage body abstracted as an
  `Except`-valued oracle, recording which stages were invoked.
* `extract_module_content` embeds the dictionary-access logic of
  `enhanced_coursegen_multiagent.py` lines 1239-1277 with Python's
  `AttributeError` / `TypeError` behaviour made explicit in `Except`.

Python strings are modelled as `List Char`.
-/

namespace CourseGen

/-- Python strings, modelled as character lists. -/
abbrev PyStr := List Char

/-- Convert a Lean string literal to the `PyStr` model. -/
def strL (s : String) : PyStr := s.toList

/-- The double-quote character. -/
def quoteC : Char := Char.ofNat 34

/-- The single-quote character. -/
def apostC : Char := Char.ofNat 39

/-- The backslash character. -/
def backslashC : Char := Char.ofNat 92

/-- The opening curly bracket. -/
def lbraceC : Char := Char.ofNat 123

/-- The closing curly bracket. -/
def rbraceC : Char := Char.ofNat 125

/-- The backtick character used by Markdown code fences. -/
def backtickC : Char := Char.ofNat 96

/-- Whitespace characters accepted between JSON tokens. -/
def isWsC (c : Char) : Bool := c = ' ' || c = '\n' || c = '\t' || c = '\r'

/-- Drop leading whitespace. -/
def skipWs (l : PyStr) : PyStr := l.dropWhile isWsC

/-- JSON values (the serialization format used by every pipeline stage). -/
inductive Json where
  | null
  | bool (b : Bool)
  | num (n : Int)
  | str (s : PyStr)
  | arr (elems : List Json)
  | obj (members : List (PyStr × Json))

/-- Python dictionaries with string keys and JSON values, in insertion order. -/
abbrev JDict := List (PyStr × Json)

/-- Lookup in a Python dictionary (keys are unique in every dict the code builds). -/
def jget : JDict → PyStr → Option Json
  | [], _ => none
  | (k, v) :: rest, key => if k = key then some v else jget rest key

/-- Python dictionary assignment `d[k] = v`: replaces an existing binding in
place or appends a new one, preserving insertion order. -/
def setKey : JDict → PyStr → Json → JDict
  | [], k, v => [(k, v)]
  | (k0, v0) :: rest, k, v =>
    if k0 = k then (k0, v) :: rest else (k0, v0) :: setKey rest k v

/-- Python truthiness of a JSON value (`if x:`). -/
def truthy : Json → Bool
  | Json.null => false
  | Json.bool b => b
  | Json.num n => n != 0
  | Json.str s => !s.isEmpty
  | Json.arr l => !l.isEmpty
  | Json.obj m => !m.isEmpty

/-- `dict.get(k)` on a parsed value: `none` when the value is not a dict or
the key is absent. -/
def jsonGetOpt (v : Json) (k : PyStr) : Option Json :=
  match v with
  | Json.obj m => jget m k
  | _ => none

/-- Does `pat` occur at the start of `l`? -/
def startsWith : PyStr → PyStr → Bool
  | [], _ => true
  | _ :: _, [] => false
  | p :: ps, c :: cs => p = c && startsWith ps cs

/-- Substring containment, modelling Python's `needle in haystack` on strings. -/
def containsSub (needle : PyStr) : PyStr → Bool
  | [] => needle.isEmpty
  | c :: rest => startsWith needle (c :: rest) || containsSub needle rest

/-- Fuel-driven worker for `replaceAll`.  Every step consumes at least one
character of the text, so fuel equal to the text length never runs out;
the fuel argument only makes the recursion structural. -/
def replaceAllF (pat repl : PyStr) : Nat → PyStr → PyStr
  | _, [] => []
  | 0, l => l
  | Nat.succ fuel, c :: rest =>
    if startsWith pat (c :: rest) && !pat.isEmpty
    then repl ++ replaceAllF pat repl fuel (rest.drop (pat.length - 1))
    else c :: replaceAllF pat repl fuel rest

/-- Python `text.replace(pat, repl)`: replace every non-overlapping
occurrence left to right.  (An empty pattern never occurs in the code; it
is modelled as the identity.) -/
def replaceAll (pat repl l : PyStr) : PyStr := replaceAllF pat repl l.length l

/-- The `"```json"` fence marker. -/
def fenceJsonPat : PyStr := [backtickC, backtickC, backtickC, 'j', 's', 'o', 'n']

/-- The bare `"```"` fence marker. -/
def fencePat : PyStr := [backtickC, backtickC, backtickC]

/-- `text.replace("```json", "").replace("```", "")`, the fence-stripping
step shared by both `parse_json` implementations and both repair bots. -/
def stripFences (l : PyStr) : PyStr := replaceAll fencePat [] (replaceAll fenceJsonPat [] l)

/-- Python `str.strip()` (whitespace from both ends). -/
def pyStrip (l : PyStr) : PyStr := ((l.dropWhile isWsC).reverse.dropWhile isWsC).reverse

/-- The salvage span of `re.search(r'(\{.*\})', text, re.DOTALL)` in
`main.py` line 65: the regex engine matches from the first opening brace
that is followed by some closing brace, and the greedy `.*` extends the
match to the last closing brace of the whole text.  Equivalently: drop
everything before the first `{`, then drop everything after the last `}`;
the match exists iff the remaining span is nonempty. -/
def salvageSpan (l : PyStr) : Option PyStr :=
  match l.dropWhile (fun c => !(c = lbraceC)) with
  | [] => none
  | c :: rest =>
    match ((c :: rest).reverse.dropWhile (fun c => !(c = rbraceC))).reverse with
    | [] => none
    | b :: bs => some (b :: bs)

/-- Parse the body of a quoted string up to the terminator.  Escape
sequences and control characters are outside the modelled subset. -/
def parseStrBody (term : Char) : PyStr → Option (PyStr × PyStr)
  | [] => none
  | c :: rest =>
    if c = term then some ([], rest)
    else if c = backslashC then none
    else if c.toNat < 32 then none
    else match parseStrBody term rest with
      | some (s, r) => some (c :: s, r)
      | none => none

/-- Consume a run of decimal digits, accumulating their value. -/
def digitsAcc (acc : Nat) : PyStr → Nat × PyStr
  | [] => (acc, [])
  | c :: rest =>
    if c.isDigit then digitsAcc (acc * 10 + (c.toNat - 48)) rest else (acc, c :: rest)

/-- Parse a JSON integer token: optional minus sign, then digits, with the
leading-zero restriction of strict JSON. -/
def parseIntTok (l : PyStr) : Option (Int × PyStr) :=
  let (neg, l1) :=
    match l with
    | c :: rest => if c = '-' then (true, rest) else (false, l)
    | [] => (false, l)
  match l1 with
  | c :: _ =>
    if c.isDigit then
      let (n, r) := digitsAcc 0 l1
      let consumed := l1.length - r.length
      if c = '0' && decide (1 < consumed) then none
      else some (if neg then -(n : Int) else (n : Int), r)
    else none
  | [] => none

/-- Match a keyword at the start of the input. -/
def keywordTail (kw l : PyStr) : Option PyStr :=
  if startsWith kw l then some (l.drop kw.length) else none

/-- Spelling of the true literal (`py` selects Python spelling). -/
def kwTrue (py : Bool) : PyStr := if py then strL "True" else strL "true"

/-- Spelling of the false literal. -/
def kwFalse (py : Bool) : PyStr := if py then strL "False" else strL "false"

/-- Spelling of the null literal. -/
def kwNull (py : Bool) : PyStr := if py then strL "None" else strL "null"

/-- Parse a dictionary key: a double-quoted string, or with `py` also a
single-quoted string. -/
def parseKeyStr (py : Bool) (l : PyStr) : Option (PyStr × PyStr) :=
  match l with
  | c :: rest =>
    if c = quoteC then parseStrBody quoteC rest
    else if py && c = apostC then parseStrBody apostC rest
    else none
  | [] => none

/-- The pending tasks of the recursive-descent parser: a value to parse,
the remaining elements of an array, or the remaining members of an
object. -/
inductive PJob where
  | val (l : PyStr)
  | elems (l : PyStr) (acc : List Json)
  | members (l : PyStr) (acc : JDict)

/-- Recursive-descent parser shared by the `json.loads` model
(`py = false`) and the `ast.literal_eval` model (`py = true`).  The fuel
argument strictly decreases on every recursive call and makes the
recursion structural; the entry points supply more fuel than any input can
consume. -/
def parseF (py : Bool) : Nat → PJob → Option (Json × PyStr)
  | 0, _ => none
  | Nat.succ fuel, PJob.val l =>
    match skipWs l with
    | [] => none
    | c :: rest =>
      if c = quoteC then
        match parseStrBody quoteC rest with
        | some (s, r) => some (Json.str s, r)
        | none => none
      else if py && c = apostC then
        match parseStrBody apostC rest with
        | some (s, r) => some (Json.str s, r)
        | none => none
      else if c = lbraceC then
        match skipWs rest with
        | c2 :: r2 =>
          if c2 = rbraceC then some (Json.obj [], r2)
          else parseF py fuel (PJob.members (c2 :: r2) [])
        | [] => none
      else if c = '[' then
        match skipWs rest with
        | c2 :: r2 =>
          if c2 = ']' then some (Json.arr [], r2)
          else parseF py fuel (PJob.elems (c2 :: r2) [])
        | [] => none
      else
        match keywordTail (kwTrue py) (c :: rest) with
        | some r => some (Json.bool true, r)
        | none =>
          match keywordTail (kwFalse py) (c :: rest) with
          | some r => some (Json.bool false, r)
          | none =>
            match keywordTail (kwNull py) (c :: rest) with
            | some r => some (Json.null, r)
            | none =>
              match parseIntTok (c :: rest) with
              | some (n, r) => some (Json.num n, r)
              | none => none
  | Nat.succ fuel, PJob.elems l acc =>
    match parseF py fuel (PJob.val l) with
    | none => none
    | some (v, r) =>
      match skipWs r with
      | ',' :: r2 => parseF py fuel (PJob.elems r2 (acc ++ [v]))
      | ']' :: r2 => some (Json.arr (acc ++ [v]), r2)
      | _ => none
  | Nat.succ fuel, PJob.members l acc =>
    match parseKeyStr py (skipWs l) with
    | none => none
    | some (k, r) =>
      match skipWs r with
      | ':' :: r2 =>
        match parseF py fuel (PJob.val r2) with
        | none => none
        | some (v, r3) =>
          match skipWs r3 with
          | ',' :: r4 => parseF py fuel (PJob.members r4 (acc ++ [(k, v)]))
          | c5 :: r5 =>
            if c5 = rbraceC then some (Json.obj (acc ++ [(k, v)]), r5) else none
          | [] => none
      | _ => none

/-- Strict top-level parse: one value, then only trailing whitespace. -/
def loadsCore (py : Bool) (l : PyStr) : Option Json :=
  match parseF py (2 * l.length + 4) (PJob.val l) with
  | some (v, r) => if (skipWs r).isEmpty then some v else none
  | none => none

/-- Model of `json.loads` on the modelled subset. -/
def jsonLoads (l : PyStr) : Option Json := loadsCore false l

/-- Model of `ast.literal_eval` on the modelled subset. -/
def literalEval (l : PyStr) : Option Json := loadsCore true l

mutual

/-- Model of `json.dumps` with its default separators `", "` and `": "`.
(No claim requires evaluating this on concrete data; it appears
symbolically in the multi-agent extractor's round-trip step.) -/
def dumpVal : Json → PyStr
  | Json.null => strL "null"
  | Json.bool true => strL "true"
  | Json.bool false => strL "false"
  | Json.num n => (toString n).toList
  | Json.str s => quoteC :: (s ++ [quoteC])
  | Json.arr [] => ['[', ']']
  | Json.arr (x :: xs) => '[' :: (dumpVal x ++ dumpElemsTail xs ++ [']'])
  | Json.obj [] => [lbraceC, rbraceC]
  | Json.obj (m :: ms) => lbraceC :: (dumpMember m ++ dumpMembersTail ms ++ [rbraceC])

/-- Comma-separated tail of an array dump. -/
def dumpElemsTail : List Json → PyStr
  | [] => []
  | x :: xs => ',' :: ' ' :: (dumpVal x ++ dumpElemsTail xs)

/-- One `"key": value` member dump. -/
def dumpMember : PyStr × Json → PyStr
  | (k, v) => quoteC :: (k ++ (quoteC :: ':' :: ' ' :: dumpVal v))

/-- Comma-separated tail of an object dump. -/
def dumpMembersTail : JDict → PyStr
  | [] => []
  | m :: ms => ',' :: ' ' :: (dumpMember m ++ dumpMembersTail ms)

end

/-! ### The extractor of `main.py` (lines 54-106)

The external repair model call (`json_maker_bot`'s `model.invoke`) is
abstracted as a total text-to-text oracle `repair`.  The result records the
parsed value, how many times the repair oracle was invoked, and whether the
salvage scan produced the value. -/

/-- Result of `main.py`'s `parse_json`: the function never raises (the
repair bot swallows every failure), so the value is always present. -/
structure MainResult where
  value : Json
  repairCalls : Nat
  usedSalvage : Bool

/-- `json_maker_bot` of `main.py` lines 74-106: invoke the repair model,
strip fences and whitespace, try `json.loads`, then `ast.literal_eval`,
and on a second failure return an empty dict. -/
def json_maker_bot_main (repair : PyStr → PyStr) (jsonText : PyStr) : Json :=
  let cleaned := pyStrip (stripFences (repair jsonText))
  match jsonLoads cleaned with
  | some v => v
  | none =>
    match literalEval cleaned with
    | some v => v
    | none => Json.obj []

/-- `parse_json` of `main.py` lines 54-72: direct strict parse; on failure
strip fences and retry on the greedy first-brace-to-last-brace span; on
failure (or when no span exists) escalate once to `json_maker_bot`. -/
def parse_json_main (repair : PyStr → PyStr) (text : PyStr) : MainResult :=
  match jsonLoads text with
  | some v => ⟨v, 0, false⟩
  | none =>
    match salvageSpan (stripFences text) with
    | some sub =>
      match jsonLoads sub with
      | some v => ⟨v, 0, true⟩
      | none => ⟨json_maker_bot_main repair (stripFences text), 1, false⟩
    | none => ⟨json_maker_bot_main repair (stripFences text), 1, false⟩

/-! ### The extractor of `enhanced_coursegen_multiagent.py` (lines 367-405) -/

/-- Exceptions that `parse_json` of the multi-agent module can raise. -/
inductive PyErr where
  /-- `ast.literal_eval` raised (`ValueError` / `SyntaxError`). -/
  | literalEvalErr
  /-- the explicit `ValueError("Could not find JSON in response")`. -/
  | emptyJson
  /-- `json.loads` failed on the re-serialized value (unreachable). -/
  | decodeErr

/-- Result of the multi-agent `parse_json`: the value or a propagated
exception, plus the number of repair-bot invocations. -/
structure MAResult where
  value : Except PyErr Json
  repairCalls : Nat

/-- `json_maker_bot` of `enhanced_coursegen_multiagent.py` lines 367-388:
invoke the repair model and strip fence markers from its reply. -/
def json_maker_bot_ma (repair : PyStr → PyStr) (jsonText : PyStr) : PyStr :=
  stripFences (repair jsonText)

/-- `parse_json` of `enhanced_coursegen_multiagent.py` lines 392-405:
direct strict parse; on failure strip fences, call `json_maker_bot` once,
run `ast.literal_eval` on its reply (a failure propagates), reject falsy
values, and round-trip the result through `json.dumps` / `json.loads`.
There is no salvage scan in this variant. -/
def parse_json_ma (repair : PyStr → PyStr) (text : PyStr) : MAResult :=
  match jsonLoads text with
  | some v => ⟨Except.ok v, 0⟩
  | none =>
    match literalEval (json_maker_bot_ma repair (stripFences text)) with
    | none => ⟨Except.error PyErr.literalEvalErr, 1⟩
    | some v =>
      if truthy v then
        match jsonLoads (dumpVal v) with
        | some w => ⟨Except.ok w, 1⟩
        | none => ⟨Except.error PyErr.decodeErr, 1⟩
      else ⟨Except.error PyErr.emptyJson, 1⟩

/-! ### The `"properties"` envelope unwrap

`team_leader` (lines 551-556), `content_creator` (lines 609-611),
`assessment_creator` (lines 668-670), `resources_creator` (lines 728-730)
and `generate_team_output` of `main.py` (lines 432-434) all run the same
pattern on a freshly parsed dict:
`properties = d.get("properties"); if properties: d = properties`. -/

/-- One-shot unwrap of a schema-echo envelope: if the dict has a truthy
value under `"properties"`, use that value instead. -/
def unwrap_properties (d : JDict) : Json :=
  match jget d (strL "properties") with
  | some p => if truthy p then p else Json.obj d
  | none => Json.obj d

/-! ### The langgraph pipeline state of `enhanced_coursegen_multiagent.py`

`State` embeds the TypedDict of lines 17-33 plus the `all_content_ready`
flag written by `check_content_readiness` (line 1082).  The dict-valued
channels are typed as dicts per their actual use.  The `messages` channel
(an append-only chat log) is omitted; no claim concerns it. -/

/-- The run state threaded through the multi-agent graph. -/
structure State where
  course_topic : PyStr
  difficulty_level : PyStr
  target_audience : PyStr
  learning_goals : List PyStr
  manager_output : JDict
  team_output_1 : JDict
  team_output_2 : JDict
  team_output_3 : JDict
  team_output_4 : JDict
  team1_module1 : JDict
  team2_module1 : JDict
  assessment_content : JDict
  resources_content : JDict
  feedback : JDict
  course_metadata : JDict
  all_content_ready : Bool

/-- The key `f"team{n}"`. -/
def teamKey (n : Nat) : PyStr := strL "team" ++ (Nat.repr n).toList

/-- The key `f"team{t}_module{m}"`. -/
def moduleKey (t m : Nat) : PyStr :=
  teamKey t ++ strL "_module" ++ (Nat.repr m).toList

/-- `course_manager` (lines 493-538): parses the manager reply (passed in
as `managerOutput`) and returns the full state dict with only
`manager_output` holding a new value — every other field is re-sent with
its current value. -/
def course_manager_update (s : State) (managerOutput : JDict) : State :=
  { course_topic := s.course_topic
    difficulty_level := s.difficulty_level
    target_audience := s.target_audience
    learning_goals := s.learning_goals
    manager_output := managerOutput
    team_output_1 := s.team_output_1
    team_output_2 := s.team_output_2
    team_output_3 := s.team_output_3
    team_output_4 := s.team_output_4
    team1_module1 := s.team1_module1
    team2_module1 := s.team2_module1
    assessment_content := s.assessment_content
    resources_content := s.resources_content
    feedback := s.feedback
    course_metadata := s.course_metadata
    all_content_ready := s.all_content_ready }

/-- `team_leader` (lines 541-591): copies its own `team_output_{n}` dict,
stores the parsed team reply under `f"team{n}"`, and returns only that
field (langgraph merges the partial dict, leaving other channels as they
were). -/
def team_leader_update (s : State) (teamNum : Nat) (teamOutput : Json) : State :=
  match teamNum with
  | 1 => { s with team_output_1 := setKey s.team_output_1 (teamKey 1) teamOutput }
  | 2 => { s with team_output_2 := setKey s.team_output_2 (teamKey 2) teamOutput }
  | 3 => { s with team_output_3 := setKey s.team_output_3 (teamKey 3) teamOutput }
  | 4 => { s with team_output_4 := setKey s.team_output_4 (teamKey 4) teamOutput }
  | _ => s

/-- `content_creator` (lines 594-650): returns its own
`f"team{t}_module{m}"` channel (plus its unchanged `team_output_{t}`).
Only `(1,1)` and `(2,1)` are wired into the graph; those are the only
channels of that shape in the state. -/
def content_creator_update (s : State) (teamNum moduleNum : Nat)
    (contentOutput : JDict) : State :=
  match teamNum, moduleNum with
  | 1, 1 => { s with team1_module1 := contentOutput }
  | 2, 1 => { s with team2_module1 := contentOutput }
  | _, _ => s

/-- `assessment_creator` (lines 653-710): copies `assessment_content`,
stores the parsed reply under `f"team{t}_module{m}"`, and returns that
map (plus its unchanged `team_output_{t}`). -/
def assessment_creator_update (s : State) (teamNum moduleNum : Nat)
    (assessmentOutput : Json) : State :=
  { s with assessment_content :=
      setKey s.assessment_content (moduleKey teamNum moduleNum) assessmentOutput }

/-- `resources_creator` (lines 713-767): copies `resources_content`,
stores the parsed reply under `f"team{t}_module{m}"`, and returns that
map. -/
def resources_creator_update (s : State) (teamNum moduleNum : Nat)
    (resourcesOutput : Json) : State :=
  { s with resources_content :=
      setKey s.resources_content (moduleKey teamNum moduleNum) resourcesOutput }

/-- `course_metadata_creator` (lines 770-826): returns the full state dict
with only `course_metadata` holding a new value. -/
def metadata_creator_update (s : State) (metadataOutput : JDict) : State :=
  { course_topic := s.course_topic
    difficulty_level := s.difficulty_level
    target_audience := s.target_audience
    learning_goals := s.learning_goals
    manager_output := s.manager_output
    team_output_1 := s.team_output_1
    team_output_2 := s.team_output_2
    team_output_3 := s.team_output_3
    team_output_4 := s.team_output_4
    team1_module1 := s.team1_module1
    team2_module1 := s.team2_module1
    assessment_content := s.assessment_content
    resources_content := s.resources_content
    feedback := s.feedback
    course_metadata := metadataOutput
    all_content_ready := s.all_content_ready }

/-- `quality_reviewer` (lines 829-884): returns the full state dict with
only `feedback` holding a new value. -/
def quality_reviewer_update (s : State) (feedbackOutput : JDict) : State :=
  { course_topic := s.course_topic
    difficulty_level := s.difficulty_level
    target_audience := s.target_audience
    learning_goals := s.learning_goals
    manager_output := s.manager_output
    team_output_1 := s.team_output_1
    team_output_2 := s.team_output_2
    team_output_3 := s.team_output_3
    team_output_4 := s.team_output_4
    team1_module1 := s.team1_module1
    team2_module1 := s.team2_module1
    assessment_content := s.assessment_content
    resources_content := s.resources_content
    feedback := feedbackOutput
    course_metadata := s.course_metadata
    all_content_ready := s.all_content_ready }

/-- `check_content_readiness` (lines 1066-1083): computes `all_ready` from
the lengths of the two content dicts and the assessment and resources maps
— the four `team_output_*` channels are not consulted — and writes the
`all_content_ready` flag. -/
def check_content_readiness_update (s : State) : State :=
  let all_ready :=
    decide (1 ≤ s.team1_module1.length) && decide (1 ≤ s.team2_module1.length)
      && decide (1 ≤ s.assessment_content.length)
      && decide (1 ≤ s.resources_content.length)
  { s with all_content_ready := all_ready }

/-- The conditional edge of lines 1093-1097: after `check_readiness` the
graph moves to `metadata_creator` iff `state.get("all_content_ready",
False)` holds. -/
def metadata_stage_starts (s : State) : Bool :=
  (check_content_readiness_update s).all_content_ready

/-! ### Final-document assembly (`course_generator_summary` lines 887-965
and `generate_expert_course` lines 1199-1216) -/

/-- The `team_outputs` dict built at line 893: note the entry for
`"team_output_4"` reads `state["team_output_1"]`. -/
def course_summary_modules (s : State) : JDict :=
  [(strL "team_output_1", Json.obj s.team_output_1),
   (strL "team_output_2", Json.obj s.team_output_2),
   (strL "team_output_3", Json.obj s.team_output_3),
   (strL "team_output_4", Json.obj s.team_output_1)]

/-- The `course_data` document written to `courses/{filename}` by
`course_generator_summary` (lines 953-960). -/
def course_summary_data (s : State) : JDict :=
  [(strL "metadata", Json.obj s.course_metadata),
   (strL "modules", Json.obj (course_summary_modules s)),
   (strL "content", Json.obj
      [(strL "team1_module1", Json.obj s.team1_module1),
       (strL "team2_module1", Json.obj s.team2_module1)]),
   (strL "assessments", Json.obj s.assessment_content),
   (strL "resources", Json.obj s.resources_content),
   (strL "feedback", Json.obj s.feedback)]

/-- The `team_outputs` dict built by `generate_expert_course` at line 1201:
the same `"team_output_4" ↦ final_state["team_output_1"]` assignment. -/
def expert_course_team_outputs (s : State) : JDict :=
  [(strL "team_output_1", Json.obj s.team_output_1),
   (strL "team_output_2", Json.obj s.team_output_2),
   (strL "team_output_3", Json.obj s.team_output_3),
   (strL "team_output_4", Json.obj s.team_output_1)]

/-! ### The sequential driver of `main.py` (`generate_course_async`,
lines 656-794)

Each stage body (model call + `parse_json`) is abstracted as an
`Except`-valued oracle: `ok v` is the stage's return value, `error e` a
raised exception with message `e`.  The driver records which stages were
invoked.  `asyncio.gather` invokes every member of a tier and propagates
one raised exception; the model reports the first failing member in index
order. -/

/-- One `Except`-valued outcome per stage of `generate_course_async`. -/
structure Oracles where
  manager : Except PyStr Json
  team1 : Except PyStr Json
  team2 : Except PyStr Json
  team3 : Except PyStr Json
  team4 : Except PyStr Json
  content1 : Except PyStr Json
  content2 : Except PyStr Json
  assessment : Except PyStr Json
  resources : Except PyStr Json
  metadata : Except PyStr Json

/-- Job lifecycle states of the Streamlit job record. -/
inductive JobStatus where
  | inProgress
  | completed
  | failed

/-- The fields of `st.session_state.jobs[job_id]` that the run writes. -/
structure Job where
  status : JobStatus
  current_stage : PyStr
  progress : Nat
  course_data : JDict

/-- A finished run: the job record plus the list of invoked stages. -/
structure RunOutcome where
  job : Job
  invoked : List PyStr

/-- The job record written by the `except` handler of lines 791-794: the
status flips to failed and `current_stage` is overwritten with
`f"Error: {str(e)}"`; the job's `course_data` field keeps its initial
empty value (it is only assigned on success, line 788). -/
def failed_job (e : PyStr) (prog : Nat) : Job :=
  { status := JobStatus.failed
    current_stage := strL "Error: " ++ e
    progress := prog
    course_data := [] }

/-- `await asyncio.gather(a, b, c, d)`: all four tasks run; a raised
exception propagates (first failing index in this model). -/
def gather4 (a b c d : Except PyStr Json) :
    Except PyStr (Json × Json × Json × Json) :=
  match a, b, c, d with
  | Except.ok x, Except.ok y, Except.ok z, Except.ok w => Except.ok (x, y, z, w)
  | Except.error e, _, _, _ => Except.error e
  | _, Except.error e, _, _ => Except.error e
  | _, _, Except.error e, _ => Except.error e
  | _, _, _, Except.error e => Except.error e

/-- The driver of `main.py` lines 656-794.  Progress values follow the
code: 30 set before the manager stage, 40 after it, 70 before the content
tier, 85 after it, 100 on completion. -/
def generate_course_async (o : Oracles) (enhancedSearch : Bool)
    (searchResults : Json) : RunOutcome :=
  let inv0 : List PyStr := if enhancedSearch then [strL "web_search"] else []
  let base : JDict :=
    if enhancedSearch then [(strL "search_results", searchResults)] else []
  match o.manager with
  | Except.error e => ⟨failed_job e 30, inv0 ++ [strL "manager"]⟩
  | Except.ok managerOut =>
    let inv1 := inv0 ++ [strL "manager", strL "team_1", strL "team_2",
      strL "team_3", strL "team_4"]
    match gather4 o.team1 o.team2 o.team3 o.team4 with
    | Except.error e => ⟨failed_job e 40, inv1⟩
    | Except.ok (t1, t2, t3, t4) =>
      let inv2 := inv1 ++ [strL "content_1", strL "content_2",
        strL "assessment", strL "resources"]
      match gather4 o.content1 o.content2 o.assessment o.resources with
      | Except.error e => ⟨failed_job e 70, inv2⟩
      | Except.ok (c1, c2, av, rv) =>
        let inv3 := inv2 ++ [strL "metadata"]
        match o.metadata with
        | Except.error e => ⟨failed_job e 85, inv3⟩
        | Except.ok md =>
          let data : JDict := base ++
            [(strL "manager_output", managerOut),
             (strL "team_output_1", t1), (strL "team_output_2", t2),
             (strL "team_output_3", t3), (strL "team_output_4", t4),
             (strL "team1_module1", c1), (strL "team2_module1", c2),
             (strL "assessment_content", Json.obj [(strL "team1_module1", av)]),
             (strL "resources_content", Json.obj [(strL "team1_module1", rv)]),
             (strL "metadata", md)]
          ⟨{ status := JobStatus.completed
             current_stage := strL "Course generation complete"
             progress := 100
             course_data := data }, inv3⟩

/-- `Except.isOk` restated locally for oracle outcomes. -/
def okB : Except PyStr Json → Bool
  | Except.ok _ => true
  | Except.error _ => false

/-- All ten stage oracles succeed. -/
def oraclesOk (o : Oracles) : Bool :=
  okB o.manager && okB o.team1 && okB o.team2 && okB o.team3 && okB o.team4
    && okB o.content1 && okB o.content2 && okB o.assessment && okB o.resources
    && okB o.metadata

/-! ### `extract_module_content` (lines 1239-1277) with Python dynam
attribute semantics made explicit -/

/-- Runtime errors the Python dictionary accesses can raise. -/
inductive PyRunErr where
  /-- `.get` on a value with no such attribute (e.g. a string or list). -/
  | attributeErr
  /-- unsupported operand / index type (`in` on an int, `list["key"]`). -/
  | typeErr
  /-- missing key on direct subscript. -/
  | keyErr

/-- Python `v.get(k, dflt)`: only dicts have `.get`. -/
def py_get_default (v : Json) (k : PyStr) (dflt : Json) : Except PyRunErr Json :=
  match v with
  | Json.obj m => Except.ok ((jget m k).getD dflt)
  | _ => Except.error PyRunErr.attributeErr

/-- Python `v.get(k)` (default `None`). -/
def py_get_none (v : Json) (k : PyStr) : Except PyRunErr Json :=
  match v with
  | Json.obj m => Except.ok ((jget m k).getD Json.null)
  | _ => Except.error PyRunErr.attributeErr

/-- Python `k in v` for a string `k`: key test on dicts, element test on
lists, substring test on strings, `TypeError` otherwise. -/
def py_contains (v : Json) (k : PyStr) : Except PyRunErr Bool :=
  match v with
  | Json.obj m => Except.ok (jget m k).isSome
  | Json.arr l =>
    Except.ok (l.any (fun x => match x with
      | Json.str s => decide (s = k)
      | _ => false))
  | Json.str s => Except.ok (containsSub k s)
  | _ => Except.error PyRunErr.typeErr

/-- Python `v[k]` for a string `k`. -/
def py_subscript (v : Json) (k : PyStr) : Except PyRunErr Json :=
  match v with
  | Json.obj m =>
    match jget m k with
    | some x => Except.ok x
    | none => Except.error PyRunErr.keyErr
  | _ => Except.error PyRunErr.typeErr

/-- The expression `course_data.get(topKey, {}).get(contentKey, {})`
used for the content, assessments and resources entries. -/
def pyGetChain (cd : JDict) (topKey contentKey : PyStr) : Except PyRunErr Json :=
  py_get_default ((jget cd topKey).getD (Json.obj [])) contentKey (Json.obj [])

/-- The `module_metadata` dict built inside the `if team_key in ...`
branch (lines 1256-1265). -/
def module_meta_of (modulesVal : Json) (team_key : PyStr) (mn : Nat) :
    Except PyRunErr Json :=
  match py_subscript modulesVal team_key with
  | Except.error er => Except.error er
  | Except.ok teamVal =>
    match py_get_none teamVal (strL "module_" ++ (Nat.repr mn).toList),
        py_get_none teamVal (strL "description_" ++ (Nat.repr mn).toList),
        py_get_default teamVal (strL "learning_objectives_" ++ (Nat.repr mn).toList)
          (Json.arr []) with
    | Except.ok t, Except.ok d, Except.ok g =>
      Except.ok (Json.obj [(strL "title", t), (strL "description", d),
        (strL "learning_objectives", g)])
    | Except.error er, _, _ => Except.error er
    | _, Except.error er, _ => Except.error er
    | _, _, Except.error er => Except.error er

/-- The `module_metadata` phase of `extract_module_content` (lines
1254-1265): empty unless `team_key in course_data.get("modules", {})`
holds, in which case the team entry is subscripted and its three
module fields are read. -/
def module_meta_branch (course_data : JDict) (team_num module_num : Nat) :
    Except PyRunErr Json :=
  match py_contains ((jget course_data (strL "modules")).getD (Json.obj []))
      (teamKey team_num) with
  | Except.error er => Except.error er
  | Except.ok mem =>
    if mem then
      module_meta_of ((jget course_data (strL "modules")).getD (Json.obj []))
        (teamKey team_num) module_num
    else Except.ok (Json.obj [])

/-- `extract_module_content` (lines 1239-1277): the metadata phase, then
the three `course_data.get(k, {}).get(content_key, {})` reads, assembled
into the four-key result dict. -/
def extract_module_content (course_data : JDict) (team_num module_num : Nat) :
    Except PyRunErr Json :=
  match module_meta_branch course_data team_num module_num with
  | Except.error er => Except.error er
  | Except.ok meta =>
    match pyGetChain course_data (strL "content") (moduleKey team_num module_num),
        pyGetChain course_data (strL "assessments") (moduleKey team_num module_num),
        pyGetChain course_data (strL "resources") (moduleKey team_num module_num) with
    | Except.ok c, Except.ok a, Except.ok r =>
      Except.ok (Json.obj [(strL "metadata", meta), (strL "content", c),
        (strL "assessments", a), (strL "resources", r)])
    | Except.error er, _, _ => Except.error er
    | _, Except.error er, _ => Except.error er
    | _, _, Except.error er => Except.error er

/-! ### Helper lemmas -/

theorem startsWith_append_self (p l : PyStr) : startsWith p (p ++ l) = true := by
  induction p with
  | nil => rfl
  | cons c cs ih => simp [startsWith, ih]

theorem startsWith_false_of_notMem (c : Char) (ps l : PyStr) (h : c ∉ l) :
    startsWith (c :: ps) l = false := by
  cases l with
  | nil => rfl
  | cons a rest =>
    have ha : ¬(c = a) := fun he => h (he ▸ List.mem_cons_self a rest)
    simp [startsWith, ha]

theorem replaceAllF_nilText (pat repl : PyStr) (fuel : Nat) :
    replaceAllF pat repl fuel [] = [] := by
  cases fuel <;> rfl

theorem replaceAllF_irrel (pat repl : PyStr) :
    ∀ (f₁ : Nat) (l : PyStr) (f₂ : Nat), l.length ≤ f₁ → l.length ≤ f₂ →
      replaceAllF pat repl f₁ l = replaceAllF pat repl f₂ l := by
  intro f₁
  induction f₁ with
  | zero =>
    intro l f₂ h₁ _
    have hl : l = [] := List.eq_nil_of_length_eq_zero (Nat.le_zero.mp h₁)
    subst hl
    rw [replaceAllF_nilText, replaceAllF_nilText]
  | succ f ih =>
    intro l f₂ h₁ h₂
    cases l with
    | nil => rw [replaceAllF_nilText, replaceAllF_nilText]
    | cons c rest =>
      cases f₂ with
      | zero => simp at h₂
      | succ f₂' =>
        simp only [replaceAllF]
        have hr : rest.length ≤ f := by simp at h₁; omega
        have hr₂ : rest.length ≤ f₂' := by simp at h₂; omega
        have hd : (rest.drop (pat.length - 1)).length ≤ f := by
          have := List.length_drop (pat.length - 1) rest
          omega
        have hd₂ : (rest.drop (pat.length - 1)).length ≤ f₂' := by
          have := List.length_drop (pat.length - 1) rest
          omega
        by_cases hc : (startsWith pat (c :: rest) && !pat.isEmpty) = true
        · rw [if_pos hc, if_pos hc, ih _ _ hd hd₂]
        · rw [if_neg hc, if_neg hc, ih _ _ hr hr₂]

theorem replaceAll_cons (pat repl : PyStr) (c : Char) (rest : PyStr) :
    replaceAll pat repl (c :: rest) =
      if startsWith pat (c :: rest) && !pat.isEmpty
      then repl ++ replaceAll pat repl (rest.drop (pat.length - 1))
      else c :: replaceAll pat repl rest := by
  show replaceAllF pat repl (c :: rest).length (c :: rest) = _
  have hlen : (c :: rest).length = rest.length + 1 := rfl
  rw [hlen]
  simp only [replaceAllF]
  by_cases hc : (startsWith pat (c :: rest) && !pat.isEmpty) = true
  · rw [if_pos hc, if_pos hc,
      replaceAllF_irrel pat repl rest.length _ ((rest.drop (pat.length - 1)).length)
        (by have := List.length_drop (pat.length - 1) rest; omega) (Nat.le_refl _)]
    rfl
  · rw [if_neg hc, if_neg hc,
      replaceAllF_irrel pat repl rest.length _ rest.length (Nat.le_refl _) (Nat.le_refl _)]
    rfl

theorem replaceAll_nil (pat repl : PyStr) : replaceAll pat repl [] = [] := rfl

theorem replaceAll_skip (c : Char) (ps repl : PyStr) (l₁ l₂ : PyStr) (h : c ∉ l₁) :
    replaceAll (c :: ps) repl (l₁ ++ l₂) = l₁ ++ replaceAll (c :: ps) repl l₂ := by
  induction l₁ with
  | nil => rfl
  | cons a rest ih =>
    have ha : ¬(c = a) := fun he => h (he ▸ List.mem_cons_self a rest)
    have hs : startsWith (c :: ps) (a :: (rest ++ l₂)) = false := by
      simp [startsWith, ha]
    have hrest : c ∉ rest := fun hm => h (List.mem_cons_of_mem a hm)
    rw [List.cons_append, replaceAll_cons, hs]
    simp only [Bool.false_and, if_neg Bool.false_ne_true]
    rw [ih hrest]
    simp

theorem replaceAll_nomatch (c : Char) (ps repl l : PyStr) (h : c ∉ l) :
    replaceAll (c :: ps) repl l = l := by
  have := replaceAll_skip c ps repl l [] h
  simpa [replaceAll_nil] using this

theorem replaceAll_consume (c : Char) (ps l : PyStr) :
    replaceAll (c :: ps) [] ((c :: ps) ++ l) = replaceAll (c :: ps) [] l := by
  have h1 : startsWith (c :: ps) (c :: (ps ++ l)) = true := by
    have := startsWith_append_self (c :: ps) l
    simpa using this
  have h2 : (ps ++ l).drop ((c :: ps).length - 1) = l := by
    have : (c :: ps).length - 1 = ps.length := by simp
    rw [this]
    exact List.drop_left ps l
  rw [List.cons_append, replaceAll_cons, h1]
  simp only [Bool.true_and]
  rw [if_pos (show (!(c :: ps).isEmpty) = true from rfl), h2, List.nil_append]

theorem dropWhile_append_of_all (p : Char → Bool) (l₁ l₂ : PyStr)
    (h : ∀ a ∈ l₁, p a = true) :
    (l₁ ++ l₂).dropWhile p = l₂.dropWhile p := by
  induction l₁ with
  | nil => rfl
  | cons a rest ih =>
    have ha : p a = true := h a (List.mem_cons_self a rest)
    have hrest : ∀ b ∈ rest, p b = true := fun b hb => h b (List.mem_cons_of_mem a hb)
    simp [List.dropWhile, ha, ih hrest]

theorem jget_setKey_ne (d : JDict) (k k' : PyStr) (v : Json) (h : ¬(k' = k)) :
    jget (setKey d k v) k' = jget d k' := by
  induction d with
  | nil =>
    have : ¬(k = k') := fun he => h he.symm
    simp [setKey, jget, this]
  | cons p rest ih =>
    obtain ⟨k0, v0⟩ := p
    by_cases hk : k0 = k
    · subst hk
      have : ¬(k0 = k') := fun he => h he.symm
      simp [setKey, jget, this]
    · simp [setKey, jget, hk, ih]

/-! ### C7 — round-trip identity on the happy path -/

/-- C7: for every text that is a valid strict serialization of a value
(the parsing of both extractors is schema-independent, so "conforming to
S" imposes no extra condition), extraction returns exactly that value via
the direct parse: no salvage is used and the repair agent is never
invoked.  This holds for both `parse_json` implementations. -/
theorem c7_roundtrip_identity (repair : PyStr → PyStr) (text : PyStr) (v : Json)
    (h : jsonLoads text = some v) :
    parse_json_main repair text = ⟨v, 0, false⟩
  ∧ parse_json_ma repair text = ⟨Except.ok v, 0⟩ := by
  constructor
  · unfold parse_json_main
    rw [h]
  · unfold parse_json_ma
    rw [h]

/-- A representative structured value for concrete instantiations. -/
def sampleVal : Json :=
  Json.obj [(strL "title", Json.str (strL "Graphs")), (strL "n", Json.num 4),
    (strL "tags", Json.arr [Json.bool true, Json.null])]

/-- Witness for C7 at the serialization of `sampleVal`. -/
theorem c7_roundtrip_identity_witness :
    jsonLoads (dumpVal sampleVal) = some sampleVal
  ∧ parse_json_main (fun _ => strL "x") (dumpVal sampleVal) = ⟨sampleVal, 0, false⟩ :=
  ⟨rfl, (c7_roundtrip_identity (fun _ => strL "x") (dumpVal sampleVal) sampleVal rfl).1⟩

/-! ### C1 — bounded repair, but `main.py` swallows the second failure -/

/-- C1 counterexample: in `main.py`, when the text is unparseable, the
salvage scan finds nothing and the repair bot's reply is itself
unparseable, `parse_json` does NOT fail: `json_maker_bot` returns an empty
dict (line 106), so the claim's "the failure is never silently swallowed
(never replaced by an empty value)" is false on the code.  Concretely,
text `"x"` with a repair reply `"x"` yields the empty dict after exactly
one repair call instead of a propagated `MalformedOutput`. -/
theorem c1_counterexample :
    parse_json_main (fun _ => strL "x") (strL "x") =
      ⟨Json.obj [], 1, false⟩ := rfl

/-- C1 amended: for every extraction call on text failing the direct parse
(and, for `main.py`, the salvage scan), the repair bot is invoked exactly
once and never more; in the multi-agent extractor a second failure
propagates as an exception (`ast.literal_eval` raising), but in `main.py`
a second failure is silently replaced by an empty dict. -/
theorem c1_repair_bounded (repair : PyStr → PyStr) (text : PyStr) :
    (parse_json_main repair text).repairCalls ≤ 1
  ∧ (parse_json_ma repair text).repairCalls ≤ 1
  ∧ (jsonLoads text = none → (parse_json_ma repair text).repairCalls = 1)
  ∧ (jsonLoads text = none →
      literalEval (json_maker_bot_ma repair (stripFences text)) = none →
      parse_json_ma repair text = ⟨Except.error PyErr.literalEvalErr, 1⟩)
  ∧ (jsonLoads text = none →
      (∀ sub, salvageSpan (stripFences text) = some sub → jsonLoads sub = none) →
      (parse_json_main repair text).repairCalls = 1)
  ∧ (jsonLoads text = none →
      (∀ sub, salvageSpan (stripFences text) = some sub → jsonLoads sub = none) →
      jsonLoads (pyStrip (stripFences (repair (stripFences text)))) = none →
      literalEval (pyStrip (stripFences (repair (stripFences text)))) = none →
      (parse_json_main repair text).value = Json.obj []) := by
  refine ⟨?_, ?_, ?_, ?_, ?_, ?_⟩
  · unfold parse_json_main
    split
    · simp
    · split
      · split <;> simp
      · simp
  · unfold parse_json_ma
    split
    · simp
    · split
      · simp
      · split
        · split <;> simp
        · simp
  · intro h
    unfold parse_json_ma
    simp only [h]
    split
    · rfl
    · split
      · split <;> rfl
      · rfl
  · intro h hlit
    unfold parse_json_ma
    simp only [h, hlit]
  · intro h hsal
    unfold parse_json_main
    simp only [h]
    rcases hs : salvageSpan (stripFences text) with _ | sub
    · simp only [hs]
    · simp only [hs, hsal sub hs]
  · intro h hsal hjl hlit
    unfold parse_json_main
    simp only [h]
    rcases hs : salvageSpan (stripFences text) with _ | sub
    · simp only [hs]
      unfold json_maker_bot_main
      simp only [hjl, hlit]
    · simp only [hs, hsal sub hs]
      unfold json_maker_bot_main
      simp only [hjl, hlit]

/-- Witness for C1 at text `"x"` with repair reply `"x"`: the direct parse
and (vacuously) the salvage fail, the repaired text is unparseable, and
both extractors make exactly one repair call. -/
theorem c1_repair_bounded_witness :
    jsonLoads (strL "x") = none
  ∧ (parse_json_main (fun _ => strL "x") (strL "x")).repairCalls = 1
  ∧ parse_json_ma (fun _ => strL "x") (strL "x") =
      ⟨Except.error PyErr.literalEvalErr, 1⟩ :=
  ⟨rfl,
   (c1_repair_bounded (fun _ => strL "x") (strL "x")).2.2.2.2.1 rfl
     (fun sub hs => Option.noConfusion hs),
   (c1_repair_bounded (fun _ => strL "x") (strL "x")).2.2.2.1 rfl rfl⟩

/-! ### C2 — the metadata gate does not inspect the team outputs -/

/-- A reachable-shaped pipeline state with three of four team outputs
populated, the fourth empty, and all four content/assessment/resource
maps populated. -/
def gateState : State :=
  { course_topic := strL "Graph Theory"
    difficulty_level := strL "Intermediate"
    target_audience := strL "Adults"
    learning_goals := [strL "Understand core concepts"]
    manager_output := [(strL "task_1", Json.str (strL "t"))]
    team_output_1 := [(teamKey 1, Json.obj [(strL "module_1", Json.str (strL "A"))])]
    team_output_2 := [(teamKey 2, Json.obj [(strL "module_1", Json.str (strL "B"))])]
    team_output_3 := [(teamKey 3, Json.obj [(strL "module_1", Json.str (strL "C"))])]
    team_output_4 := []
    team1_module1 := [(strL "title", Json.str (strL "A"))]
    team2_module1 := [(strL "title", Json.str (strL "B"))]
    assessment_content := [(moduleKey 3 1, Json.obj [])]
    resources_content := [(moduleKey 4 1, Json.obj [])]
    feedback := []
    course_metadata := []
    all_content_ready := false }

/-- C2 counterexample: `gateState` has only 3 of 4 team outputs populated
(`team_output_4` is empty), yet `check_content_readiness` sets
`all_content_ready` and the conditional edge starts the metadata stage —
the claimed refusal does not happen, because the gate never inspects the
team outputs. -/
theorem c2_counterexample :
    gateState.team_output_4 = [] ∧ metadata_stage_starts gateState = true :=
  ⟨rfl, rfl⟩

/-- C2 amended: the metadata stage starts iff `team1_module1`,
`team2_module1`, `assessment_content` and `resources_content` each hold at
least one entry; the decision is independent of the four team outputs (a
state with 3 of 4 team outputs populated is NOT refused). -/
theorem c2_metadata_gate :
    (∀ s : State, metadata_stage_starts s =
      (decide (1 ≤ s.team1_module1.length) && decide (1 ≤ s.team2_module1.length)
        && decide (1 ≤ s.assessment_content.length)
        && decide (1 ≤ s.resources_content.length)))
  ∧ (∀ (s : State) (t1 t2 t3 t4 : JDict),
      metadata_stage_starts
        { s with team_output_1 := t1, team_output_2 := t2,
                 team_output_3 := t3, team_output_4 := t4 }
        = metadata_stage_starts s) :=
  ⟨fun _ => rfl, fun _ _ _ _ _ => rfl⟩

/-! ### C6 — the `"properties"` envelope unwrap -/

/-- C6: a parsed dict carrying a (truthy) value under `"properties"` is
unwrapped exactly one level — the stage uses the inner value, and every
downstream field read sees exactly the fields of the inner value; a dict
without the envelope key is used as is. -/
theorem c6_properties_unwrap (d : JDict) (inner : Json)
    (h : jget d (strL "properties") = some inner) (ht : truthy inner = true) :
    unwrap_properties d = inner
  ∧ (∀ k, jsonGetOpt (unwrap_properties d) k = jsonGetOpt inner k)
  ∧ (∀ d' : JDict, jget d' (strL "properties") = none →
      unwrap_properties d' = Json.obj d') := by
  have h1 : unwrap_properties d = inner := by
    simp [unwrap_properties, h, ht]
  refine ⟨h1, fun k => by rw [h1], fun d' h' => by unfold unwrap_properties; rw [h']⟩

/-- Witness for C6 at a concrete schema-echo envelope. -/
theorem c6_properties_unwrap_witness :
    jget [(strL "properties", Json.obj [(strL "module_1", Json.str (strL "Intro"))])]
        (strL "properties")
      = some (Json.obj [(strL "module_1", Json.str (strL "Intro"))])
  ∧ unwrap_properties
        [(strL "properties", Json.obj [(strL "module_1", Json.str (strL "Intro"))])]
      = Json.obj [(strL "module_1", Json.str (strL "Intro"))] :=
  ⟨rfl,
   (c6_properties_unwrap
      [(strL "properties", Json.obj [(strL "module_1", Json.str (strL "Intro"))])]
      (Json.obj [(strL "module_1", Json.str (strL "Intro"))]) rfl rfl).1⟩

/-! ### C4 — the salvage scan exists only in `main.py` -/

/-- C4 counterexample: the multi-agent extractor performs no salvage scan.
On `"note {"a": 1}"` the direct parse fails and the greedy brace span
parses, yet `parse_json_ma` invokes the repair agent (here replying
junk), instead of returning the salvaged value without repair as the
claim requires of "the extractor". -/
theorem c4_counterexample :
    (parse_json_ma (fun _ => strL "x") (strL "note \x7b\x22a\x22: 1\x7d")).repairCalls = 1
  ∧ parse_json_main (fun _ => strL "x") (strL "note \x7b\x22a\x22: 1\x7d") =
      ⟨Json.obj [(strL "a", Json.num 1)], 0, true⟩ :=
  ⟨rfl, rfl⟩

/-- C4 amended: `main.py`'s extractor behaves as claimed — on direct-parse
failure it takes the greedy span from the first opening brace to the last
closing brace of the fence-stripped text, retries the strict parse on
exactly that substring and returns its value without invoking the repair
agent; the multi-agent extractor instead performs no salvage and escalates
straight to repair (exactly one call) on every direct-parse failure. -/
theorem c4_salvage_scan (repair : PyStr → PyStr) (text sub : PyStr) (v : Json)
    (hdirect : jsonLoads text = none)
    (hspan : salvageSpan (stripFences text) = some sub)
    (hsub : jsonLoads sub = some v) :
    parse_json_main repair text = ⟨v, 0, true⟩
  ∧ (parse_json_ma repair text).repairCalls = 1 := by
  constructor
  · unfold parse_json_main
    simp only [hdirect, hspan, hsub]
  · unfold parse_json_ma
    simp only [hdirect]
    split
    · rfl
    · split
      · split <;> rfl
      · rfl

/-- Witness for C4 on a narrative-wrapped object. -/
theorem c4_salvage_scan_witness :
    jsonLoads (strL "pre \x7b\x22a\x22: 1\x7d post") = none
  ∧ parse_json_main (fun _ => strL "r") (strL "pre \x7b\x22a\x22: 1\x7d post") =
      ⟨Json.obj [(strL "a", Json.num 1)], 0, true⟩ :=
  ⟨rfl,
   (c4_salvage_scan (fun _ => strL "r") (strL "pre \x7b\x22a\x22: 1\x7d post")
      (strL "\x7b\x22a\x22: 1\x7d") (Json.obj [(strL "a", Json.num 1)])
      rfl rfl rfl).1⟩

/-! ### C8 — frame property of the multi-agent stages -/

/-- C8: every stage writes only its own output field(s) and leaves every
other field of the run state unchanged — stated as: putting the stage's
own output field back to its old value recovers the original state
exactly, so the generation parameters and all sibling artifacts are
untouched; additionally the assessment/resources creators preserve every
existing entry of their maps other than their own key. -/
theorem c8_frame_property (s : State) (mo : JDict) (t1o t2o t3o t4o : Json)
    (c1o c2o : JDict) (ao ro : Json) (mdo fbo : JDict) :
    (∀ k, ¬(k = moduleKey 3 1) →
      jget (assessment_creator_update s 3 1 ao).assessment_content k
        = jget s.assessment_content k)
  ∧ (∀ k, ¬(k = moduleKey 4 1) →
      jget (resources_creator_update s 4 1 ro).resources_content k
        = jget s.resources_content k)
  ∧ { course_manager_update s mo with manager_output := s.manager_output } = s
  ∧ { team_leader_update s 1 t1o with team_output_1 := s.team_output_1 } = s
  ∧ { team_leader_update s 2 t2o with team_output_2 := s.team_output_2 } = s
  ∧ { team_leader_update s 3 t3o with team_output_3 := s.team_output_3 } = s
  ∧ { team_leader_update s 4 t4o with team_output_4 := s.team_output_4 } = s
  ∧ { content_creator_update s 1 1 c1o with team1_module1 := s.team1_module1 } = s
  ∧ { content_creator_update s 2 1 c2o with team2_module1 := s.team2_module1 } = s
  ∧ { assessment_creator_update s 3 1 ao with
        assessment_content := s.assessment_content } = s
  ∧ { resources_creator_update s 4 1 ro with
        resources_content := s.resources_content } = s
  ∧ { metadata_creator_update s mdo with course_metadata := s.course_metadata } = s
  ∧ { quality_reviewer_update s fbo with feedback := s.feedback } = s := by
  refine ⟨?_, ?_, rfl, rfl, rfl, rfl, rfl, rfl, rfl, rfl, rfl, rfl, rfl⟩
  · intro k hk
    exact jget_setKey_ne s.assessment_content (moduleKey 3 1) k ao hk
  · intro k hk
    exact jget_setKey_ne s.resources_content (moduleKey 4 1) k ro hk

/-- A populated pipeline state used for concrete instantiations. -/
def sampleState : State :=
  { course_topic := strL "Graph Theory"
    difficulty_level := strL "Intermediate"
    target_audience := strL "Adults"
    learning_goals := [strL "Understand core concepts"]
    manager_output := [(strL "task_1", Json.str (strL "t"))]
    team_output_1 := [(teamKey 1, Json.obj [(strL "module_1", Json.str (strL "A"))])]
    team_output_2 := [(teamKey 2, Json.obj [(strL "module_1", Json.str (strL "B"))])]
    team_output_3 := [(teamKey 3, Json.obj [(strL "module_1", Json.str (strL "C"))])]
    team_output_4 := [(teamKey 4, Json.obj [(strL "module_1", Json.str (strL "D"))])]
    team1_module1 := [(strL "title", Json.str (strL "A"))]
    team2_module1 := [(strL "title", Json.str (strL "B"))]
    assessment_content := [(moduleKey 3 1, Json.obj [])]
    resources_content := [(moduleKey 4 1, Json.obj [])]
    feedback := []
    course_metadata := []
    all_content_ready := false }

/-- Witness for C8: the assessment creator leaves a foreign key's entry
unchanged in a concrete populated state. -/
theorem c8_frame_property_witness :
    ¬(strL "other" = moduleKey 3 1)
  ∧ jget (assessment_creator_update sampleState 3 1 Json.null).assessment_content
        (strL "other")
      = jget sampleState.assessment_content (strL "other") :=
  ⟨by decide,
   (c8_frame_property sampleState [] Json.null Json.null Json.null Json.null
      [] [] Json.null Json.null [] []).1 (strL "other") (by decide)⟩

/-! ### C10 — `extract_module_content` and missing keys -/

/-- C10 counterexample: `extract_module_content` is not total on arbitrary
course-data mappings: when the `"content"` entry is present but is a
string, `course_data.get("content", {}).get(content_key, {})` raises
`AttributeError` (a string has no `.get`), contradicting "never raises an
error". -/
theorem c10_counterexample :
    extract_module_content [(strL "content", Json.str (strL "oops"))] 1 1
      = Except.error PyRunErr.attributeErr := rfl

/-- C10 amended: on every course-data mapping whose four top-level
entries, when present, are mappings (and whose modules entry maps the
requested team key, when present, to a mapping), `extract_module_content`
returns — without error — a mapping with exactly the keys `metadata`,
`content`, `assessments`, `resources`, substituting empty mappings for
absent entries. -/
theorem c10_total_extraction (cd : JDict) (tn mn : Nat)
    (hm : ∀ v, jget cd (strL "modules") = some v → ∃ m, v = Json.obj m)
    (hc : ∀ v, jget cd (strL "content") = some v → ∃ m, v = Json.obj m)
    (ha : ∀ v, jget cd (strL "assessments") = some v → ∃ m, v = Json.obj m)
    (hr : ∀ v, jget cd (strL "resources") = some v → ∃ m, v = Json.obj m)
    (ht : ∀ m t, jget cd (strL "modules") = some (Json.obj m) →
        jget m (teamKey tn) = some t → ∃ d, t = Json.obj d) :
    ∃ meta cont asse reso,
      extract_module_content cd tn mn = Except.ok (Json.obj
        [(strL "metadata", meta), (strL "content", cont),
         (strL "assessments", asse), (strL "resources", reso)])
    ∧ (jget cd (strL "modules") = none → meta = Json.obj [])
    ∧ (jget cd (strL "content") = none → cont = Json.obj [])
    ∧ (jget cd (strL "assessments") = none → asse = Json.obj [])
    ∧ (jget cd (strL "resources") = none → reso = Json.obj []) := by
  have chain : ∀ key : PyStr, (∀ v, jget cd key = some v → ∃ m, v = Json.obj m) →
      ∃ x, pyGetChain cd key (moduleKey tn mn) = Except.ok x
        ∧ (jget cd key = none → x = Json.obj []) := by
    intro key hk
    rcases hg : jget cd key with _ | v
    · refine ⟨Json.obj [], ?_, fun _ => rfl⟩
      unfold pyGetChain
      rw [hg]
      rfl
    · obtain ⟨m, rfl⟩ := hk v hg
      refine ⟨(jget m (moduleKey tn mn)).getD (Json.obj []), ?_, ?_⟩
      · unfold pyGetChain
        rw [hg]
        rfl
      · intro hnone
        exact Option.noConfusion hnone
  obtain ⟨cont, hcont, hcnone⟩ := chain (strL "content") hc
  obtain ⟨asse, hasse, hanone⟩ := chain (strL "assessments") ha
  obtain ⟨reso, hreso, hrnone⟩ := chain (strL "resources") hr
  have meta_part : ∃ meta,
      module_meta_branch cd tn mn = Except.ok meta
      ∧ (jget cd (strL "modules") = none → meta = Json.obj []) := by
    rcases hg : jget cd (strL "modules") with _ | v
    · refine ⟨Json.obj [], ?_, fun _ => rfl⟩
      unfold module_meta_branch
      rw [hg]
      rfl
    · obtain ⟨m, rfl⟩ := hm v hg
      have hfix : ∀ meta, module_meta_of (Json.obj m) (teamKey tn) mn = Except.ok meta →
          module_meta_branch cd tn mn
            = Except.ok (if (jget m (teamKey tn)).isSome then meta else Json.obj []) := by
        intro meta hmeta
        unfold module_meta_branch
        rw [hg]
        by_cases hmem : (jget m (teamKey tn)).isSome
        · simp [py_contains, hmem, hmeta]
        · simp [py_contains, hmem]
      rcases hteam : jget m (teamKey tn) with _ | t
      · refine ⟨Json.obj [], ?_, ?_⟩
        · unfold module_meta_branch
          rw [hg]
          simp [py_contains, hteam]
        · intro hnone
          exact Option.noConfusion hnone
      · obtain ⟨d, rfl⟩ := ht m t hg hteam
        have hmeta : module_meta_of (Json.obj m) (teamKey tn) mn = Except.ok (Json.obj
            [(strL "title", (jget d (strL "module_" ++ (Nat.repr mn).toList)).getD Json.null),
             (strL "description",
               (jget d (strL "description_" ++ (Nat.repr mn).toList)).getD Json.null),
             (strL "learning_objectives",
               (jget d (strL "learning_objectives_" ++ (Nat.repr mn).toList)).getD
                 (Json.arr []))]) := by
          unfold module_meta_of
          rw [show py_subscript (Json.obj m) (teamKey tn) = Except.ok (Json.obj d) by
            simp [py_subscript, hteam]]
          rfl
        exact ⟨_, hfix _ hmeta, fun hnone => Option.noConfusion hnone⟩
  obtain ⟨meta, hmeta, hmnone⟩ := meta_part
  refine ⟨meta, cont, asse, reso, ?_, hmnone, hcnone, hanone, hrnone⟩
  unfold extract_module_content
  rw [hmeta, hcont, hasse, hreso]

/-- Witness for C10 at the empty course-data mapping: every key is absent
and all four entries default to empty mappings. -/
theorem c10_total_extraction_witness :
    ∃ meta cont asse reso,
      extract_module_content [] 1 1 = Except.ok (Json.obj
        [(strL "metadata", meta), (strL "content", cont),
         (strL "assessments", asse), (strL "resources", reso)])
    ∧ (jget [] (strL "modules") = none → meta = Json.obj [])
    ∧ (jget [] (strL "content") = none → cont = Json.obj [])
    ∧ (jget [] (strL "assessments") = none → asse = Json.obj [])
    ∧ (jget [] (strL "resources") = none → reso = Json.obj []) :=
  c10_total_extraction [] 1 1
    (fun v h => Option.noConfusion h) (fun v h => Option.noConfusion h)
    (fun v h => Option.noConfusion h) (fun v h => Option.noConfusion h)
    (fun m t h _ => Option.noConfusion h)

/-! ### C3 — failure containment in the driver -/

theorem gather4_error_not_all_ok (a b c d : Except PyStr Json) (e : PyStr)
    (h : gather4 a b c d = Except.error e) :
    (okB a && okB b && okB c && okB d) = false := by
  cases a <;> cases b <;> cases c <;> cases d <;> simp [gather4, okB] at h ⊢

theorem gather4_ok_of_all (a b c d : Except PyStr Json)
    (h : (okB a && okB b && okB c && okB d) = true) :
    ∃ t, gather4 a b c d = Except.ok t := by
  cases a <;> cases b <;> cases c <;> cases d <;> simp [gather4, okB] at h ⊢

theorem gather4_ok_all (a b c d : Except PyStr Json) (t : Json × Json × Json × Json)
    (h : gather4 a b c d = Except.ok t) :
    okB a = true ∧ okB b = true ∧ okB c = true ∧ okB d = true := by
  cases a <;> cases b <;> cases c <;> cases d <;> simp [gather4, okB] at h ⊢

theorem okB_ok (x : Except PyStr Json) (h : okB x = true) : ∃ v, x = Except.ok v := by
  cases x <;> simp [okB] at h ⊢

/-- C3 counterexample: the run result does not reference WHICH stage
failed.  Two runs — one whose team-1 stage raises `"boom"`, one whose
team-4 stage raises the same message — produce identical job records
(status, stage message, progress, data), even though different stages
failed (their invocation traces coincide only because the failing tier is
the same; the failing member differs).  So the claim's "a propagated error
referencing that failing stage" is false on the code: `main.py` stores
only `f"Error: {str(e)}"`. -/
theorem c3_counterexample :
    (generate_course_async
        { manager := Except.ok Json.null,
          team1 := Except.error (strL "boom"), team2 := Except.ok Json.null,
          team3 := Except.ok Json.null, team4 := Except.ok Json.null,
          content1 := Except.ok Json.null, content2 := Except.ok Json.null,
          assessment := Except.ok Json.null, resources := Except.ok Json.null,
          metadata := Except.ok Json.null } false Json.null).job
      = (generate_course_async
        { manager := Except.ok Json.null,
          team1 := Except.ok Json.null, team2 := Except.ok Json.null,
          team3 := Except.ok Json.null, team4 := Except.error (strL "boom"),
          content1 := Except.ok Json.null, content2 := Except.ok Json.null,
          assessment := Except.ok Json.null, resources := Except.ok Json.null,
          metadata := Except.ok Json.null } false Json.null).job
  ∧ okB (Except.error (strL "boom") : Except PyStr Json) = false
  ∧ okB (Except.ok Json.null : Except PyStr Json) = true :=
  ⟨rfl, rfl, rfl⟩

/-- C3 amended: a raised stage exception makes the run fail with that
stage's error message (`"Error: " ++ e`, with no stage identifier
attached); no stage downstream of the failing tier is invoked; the run
completes exactly when every stage succeeded; and a failed run exposes no
course data at all (the job's `course_data` stays empty), so a partial
document is never presented as complete. -/
theorem c3_failure_containment (o : Oracles) (es : Bool) (sr : Json) (e : PyStr) :
    (o.manager = Except.error e →
        (generate_course_async o es sr).job = failed_job e 30
      ∧ strL "team_1" ∉ (generate_course_async o es sr).invoked
      ∧ strL "content_1" ∉ (generate_course_async o es sr).invoked
      ∧ strL "metadata" ∉ (generate_course_async o es sr).invoked)
  ∧ (∀ m, o.manager = Except.ok m →
      gather4 o.team1 o.team2 o.team3 o.team4 = Except.error e →
        (generate_course_async o es sr).job = failed_job e 40
      ∧ strL "content_1" ∉ (generate_course_async o es sr).invoked
      ∧ strL "metadata" ∉ (generate_course_async o es sr).invoked)
  ∧ (∀ m ts, o.manager = Except.ok m →
      gather4 o.team1 o.team2 o.team3 o.team4 = Except.ok ts →
      gather4 o.content1 o.content2 o.assessment o.resources = Except.error e →
        (generate_course_async o es sr).job = failed_job e 70
      ∧ strL "metadata" ∉ (generate_course_async o es sr).invoked)
  ∧ (∀ m ts cs, o.manager = Except.ok m →
      gather4 o.team1 o.team2 o.team3 o.team4 = Except.ok ts →
      gather4 o.content1 o.content2 o.assessment o.resources = Except.ok cs →
      o.metadata = Except.error e →
        (generate_course_async o es sr).job = failed_job e 85)
  ∧ ((generate_course_async o es sr).job.status = JobStatus.completed ↔
      oraclesOk o = true)
  ∧ ((generate_course_async o es sr).job.status = JobStatus.failed →
      (generate_course_async o es sr).job.course_data = []) := by
  refine ⟨?_, ?_, ?_, ?_, ?_, ?_⟩
  · intro h
    unfold generate_course_async
    simp only [h]
    cases es <;> exact ⟨by trivial, by decide, by decide, by decide⟩
  · intro m hm hg
    unfold generate_course_async
    simp only [hm, hg]
    cases es <;> exact ⟨by trivial, by decide, by decide⟩
  · intro m ts hm hg hg2
    obtain ⟨t1, t2, t3, t4⟩ := ts
    unfold generate_course_async
    simp only [hm, hg, hg2]
    cases es <;> exact ⟨by trivial, by decide⟩
  · intro m ts cs hm hg hg2 hmd
    obtain ⟨t1, t2, t3, t4⟩ := ts
    obtain ⟨c1, c2, av, rv⟩ := cs
    unfold generate_course_async
    simp only [hm, hg, hg2, hmd]
  · constructor
    · intro hcomp
      unfold generate_course_async at hcomp
      revert hcomp
      rcases hm : o.manager with em | m
      · intro hcomp
        exact absurd hcomp (by simp [failed_job])
      · rcases hg : gather4 o.team1 o.team2 o.team3 o.team4 with eg | ts
        · intro hcomp
          exact absurd hcomp (by simp [failed_job])
        · obtain ⟨t1, t2, t3, t4⟩ := ts
          rcases hg2 : gather4 o.content1 o.content2 o.assessment o.resources with
            eg2 | cs
          · intro hcomp
            exact absurd hcomp (by simp [failed_job])
          · obtain ⟨c1, c2, av, rv⟩ := cs
            rcases hmd : o.metadata with emd | md
            · intro hcomp
              exact absurd hcomp (by simp [failed_job])
            · intro _
              have ht := gather4_ok_all _ _ _ _ _ hg
              have hc := gather4_ok_all _ _ _ _ _ hg2
              unfold oraclesOk
              rw [hm, hmd, ht.1, ht.2.1, ht.2.2.1, ht.2.2.2,
                hc.1, hc.2.1, hc.2.2.1, hc.2.2.2]
              rfl
    · intro hok
      unfold oraclesOk at hok
      simp only [Bool.and_eq_true] at hok
      obtain ⟨⟨⟨⟨⟨⟨⟨⟨⟨hM, hT1⟩, hT2⟩, hT3⟩, hT4⟩, hC1⟩, hC2⟩, hA⟩, hR⟩, hMD⟩ := hok
      obtain ⟨m, hm⟩ := okB_ok _ hM
      obtain ⟨v1, h1⟩ := okB_ok _ hT1
      obtain ⟨v2, h2⟩ := okB_ok _ hT2
      obtain ⟨v3, h3⟩ := okB_ok _ hT3
      obtain ⟨v4, h4⟩ := okB_ok _ hT4
      obtain ⟨w1, i1⟩ := okB_ok _ hC1
      obtain ⟨w2, i2⟩ := okB_ok _ hC2
      obtain ⟨wa, ia⟩ := okB_ok _ hA
      obtain ⟨wr, ir⟩ := okB_ok _ hR
      obtain ⟨md, hmd⟩ := okB_ok _ hMD
      unfold generate_course_async
      simp [hm, h1, h2, h3, h4, i1, i2, ia, ir, hmd, gather4]
  · unfold generate_course_async
    rcases hm : o.manager with em | m
    · intro _
      rfl
    · rcases hg : gather4 o.team1 o.team2 o.team3 o.team4 with eg | ⟨t1, t2, t3, t4⟩
      · intro _
        rfl
      · rcases hg2 : gather4 o.content1 o.content2 o.assessment o.resources with
          eg2 | ⟨c1, c2, av, rv⟩
        · intro _
          rfl
        · rcases hmd : o.metadata with emd | md
          · intro _
            rfl
          · intro hcon
            exact absurd hcon (by simp)

/-- Witness for C3: a concrete run whose manager stage raises `"boom"`
fails with that message and never invokes the team or metadata stages. -/
theorem c3_failure_containment_witness :
    ({ manager := Except.error (strL "boom"), team1 := Except.ok Json.null,
       team2 := Except.ok Json.null, team3 := Except.ok Json.null,
       team4 := Except.ok Json.null, content1 := Except.ok Json.null,
       content2 := Except.ok Json.null, assessment := Except.ok Json.null,
       resources := Except.ok Json.null,
       metadata := Except.ok Json.null } : Oracles).manager
      = Except.error (strL "boom")
  ∧ (generate_course_async
      { manager := Except.error (strL "boom"), team1 := Except.ok Json.null,
        team2 := Except.ok Json.null, team3 := Except.ok Json.null,
        team4 := Except.ok Json.null, content1 := Except.ok Json.null,
        content2 := Except.ok Json.null, assessment := Except.ok Json.null,
        resources := Except.ok Json.null,
        metadata := Except.ok Json.null } false Json.null).job
      = failed_job (strL "boom") 30 :=
  ⟨rfl,
   ((c3_failure_containment
      { manager := Except.error (strL "boom"), team1 := Except.ok Json.null,
        team2 := Except.ok Json.null, team3 := Except.ok Json.null,
        team4 := Except.ok Json.null, content1 := Except.ok Json.null,
        content2 := Except.ok Json.null, assessment := Except.ok Json.null,
        resources := Except.ok Json.null,
        metadata := Except.ok Json.null } false Json.null (strL "boom")).1 rfl).1⟩

/-! ### C5 — fence-wrapped valid serializations -/

/-- The tail of the `"```json"` marker after its first backtick. -/
def fenceJsonTail : PyStr := [backtickC, backtickC, 'j', 's', 'o', 'n']

/-- The tail of the `"```"` marker after its first backtick. -/
def fenceTail : PyStr := [backtickC, backtickC]

/-- The four keyword characters of the long fence marker. -/
def jsonKw : PyStr := ['j', 's', 'o', 'n']

theorem ne_of_notMem (x c : Char) (l : PyStr) (h : c ∉ l) (ha : x ∈ l) :
    ¬x = c := fun he => h (he ▸ ha)

theorem pred_true_of_ne (c x : Char) (h : ¬x = c) : (!(x = c) : Bool) = true := by
  simp [h]

theorem replaceAll_skip_fj (l₁ l₂ : PyStr) (h : backtickC ∉ l₁) :
    replaceAll fenceJsonPat [] (l₁ ++ l₂) = l₁ ++ replaceAll fenceJsonPat [] l₂ :=
  replaceAll_skip backtickC fenceJsonTail [] l₁ l₂ h

theorem replaceAll_skip_f (l₁ l₂ : PyStr) (h : backtickC ∉ l₁) :
    replaceAll fencePat [] (l₁ ++ l₂) = l₁ ++ replaceAll fencePat [] l₂ :=
  replaceAll_skip backtickC fenceTail [] l₁ l₂ h

theorem replaceAll_consume_fj (l : PyStr) :
    replaceAll fenceJsonPat [] (fenceJsonPat ++ l) = replaceAll fenceJsonPat [] l :=
  replaceAll_consume backtickC fenceJsonTail l

theorem replaceAll_consume_f (l : PyStr) :
    replaceAll fencePat [] (fencePat ++ l) = replaceAll fencePat [] l :=
  replaceAll_consume backtickC fenceTail l

theorem replaceAll_nomatch_fj (l : PyStr) (h : backtickC ∉ l) :
    replaceAll fenceJsonPat [] l = l :=
  replaceAll_nomatch backtickC fenceJsonTail [] l h

theorem replaceAll_nomatch_f (l : PyStr) (h : backtickC ∉ l) :
    replaceAll fencePat [] l = l :=
  replaceAll_nomatch backtickC fenceTail [] l h

/-- Stripping `"```json"` leaves a bare closing fence intact when the
following text does not begin with `json` and has no backtick. -/
theorem replaceAll_fenceJson_fence (post : PyStr) (hbt : backtickC ∉ post)
    (hj : startsWith jsonKw post = false) :
    replaceAll fenceJsonPat [] (fencePat ++ post) = fencePat ++ post := by
  have e1 : startsWith fenceJsonPat (backtickC :: backtickC :: backtickC :: post)
      = false := by
    simp only [fenceJsonPat, startsWith]
    simp [show startsWith ['j', 's', 'o', 'n'] post = false from hj]
  have e2 : startsWith fenceJsonPat (backtickC :: backtickC :: post) = false := by
    simp only [fenceJsonPat, startsWith]
    simp [startsWith_false_of_notMem backtickC ['j', 's', 'o', 'n'] post hbt]
  have e3 : startsWith fenceJsonPat (backtickC :: post) = false := by
    simp only [fenceJsonPat, startsWith]
    simp [startsWith_false_of_notMem backtickC [backtickC, 'j', 's', 'o', 'n'] post hbt]
  show replaceAll fenceJsonPat [] (backtickC :: backtickC :: backtickC :: post) = _
  rw [replaceAll_cons, e1]
  simp only [Bool.false_and, if_neg Bool.false_ne_true]
  rw [replaceAll_cons, e2]
  simp only [Bool.false_and, if_neg Bool.false_ne_true]
  rw [replaceAll_cons, e3]
  simp only [Bool.false_and, if_neg Bool.false_ne_true]
  rw [replaceAll_nomatch_fj post hbt]
  rfl

/-- C5 counterexample: a fence-wrapped valid serialization makes the
multi-agent extractor call the repair agent (its direct parse fails on the
fences and it has no salvage retry), violating "without invoking the
repair agent". -/
theorem c5_counterexample :
    (parse_json_ma (fun _ => strL "x")
        (strL "```json\n\x7b\x22a\x22: 1\x7d\n```")).repairCalls = 1
  ∧ jsonLoads (strL "\x7b\x22a\x22: 1\x7d")
      = some (Json.obj [(strL "a", Json.num 1)]) :=
  ⟨rfl, rfl⟩

/-- C5 amended: for `main.py`'s extractor the claim holds — any text that
wraps a valid object serialization in `"```json" … "```"` fence markers
with narrative prefix/suffix (no backticks or braces in the narrative, and
the suffix not beginning with the letters `json`) parses to the same value
as the unwrapped text, with no repair call; the multi-agent extractor
instead invokes the repair agent once on every such fenced text. -/
theorem c5_fence_stripping (repair : PyStr → PyStr) (pre g1 body g2 post : PyStr)
    (v : Json)
    (hpre_bt : backtickC ∉ pre) (hg1_bt : backtickC ∉ g1)
    (hbody_bt : backtickC ∉ body) (hg2_bt : backtickC ∉ g2)
    (hpost_bt : backtickC ∉ post)
    (hpre_lb : lbraceC ∉ pre) (hg1_lb : lbraceC ∉ g1)
    (hg2_rb : rbraceC ∉ g2) (hpost_rb : rbraceC ∉ post)
    (hpost_j : startsWith jsonKw post = false)
    (hhead : body.head? = some lbraceC) (hlast : body.getLast? = some rbraceC)
    (hbody : jsonLoads body = some v)
    (hdirect : jsonLoads
      (pre ++ fenceJsonPat ++ g1 ++ body ++ g2 ++ fencePat ++ post) = none) :
    parse_json_main repair
        (pre ++ fenceJsonPat ++ g1 ++ body ++ g2 ++ fencePat ++ post)
      = ⟨v, 0, true⟩
  ∧ parse_json_main repair body = ⟨v, 0, false⟩
  ∧ (parse_json_ma repair
        (pre ++ fenceJsonPat ++ g1 ++ body ++ g2 ++ fencePat ++ post)).repairCalls
      = 1 := by
  obtain ⟨bt, rfl⟩ : ∃ bt, body = lbraceC :: bt := by
    cases body with
    | nil => exact Option.noConfusion hhead
    | cons b rest =>
      simp only [List.head?_cons, Option.some.injEq] at hhead
      exact ⟨rest, by rw [hhead]⟩
  obtain ⟨tr, hrev⟩ : ∃ tr, (lbraceC :: bt).reverse = rbraceC :: tr := by
    have h := List.head?_reverse (lbraceC :: bt)
    rw [hlast] at h
    cases hc : (lbraceC :: bt).reverse with
    | nil => rw [hc] at h; exact Option.noConfusion h
    | cons b rest =>
      rw [hc] at h
      simp only [List.head?_cons, Option.some.injEq] at h
      exact ⟨rest, by rw [h]⟩
  have hstrip : stripFences
      (pre ++ fenceJsonPat ++ g1 ++ lbraceC :: bt ++ g2 ++ fencePat ++ post)
      = pre ++ (g1 ++ ((lbraceC :: bt) ++ (g2 ++ post))) := by
    unfold stripFences
    simp only [List.append_assoc]
    rw [replaceAll_skip_fj pre _ hpre_bt, replaceAll_consume_fj,
      replaceAll_skip_fj g1 _ hg1_bt, replaceAll_skip_fj (lbraceC :: bt) _ hbody_bt,
      replaceAll_skip_fj g2 _ hg2_bt, replaceAll_fenceJson_fence post hpost_bt hpost_j,
      replaceAll_skip_f pre _ hpre_bt, replaceAll_skip_f g1 _ hg1_bt,
      replaceAll_skip_f (lbraceC :: bt) _ hbody_bt, replaceAll_skip_f g2 _ hg2_bt,
      replaceAll_consume_f, replaceAll_nomatch_f post hpost_bt]
  have hfrom : (pre ++ (g1 ++ ((lbraceC :: bt) ++ (g2 ++ post)))).dropWhile
      (fun c => !(c = lbraceC)) = lbraceC :: (bt ++ (g2 ++ post)) := by
    rw [dropWhile_append_of_all _ pre _
        (fun a ha => pred_true_of_ne lbraceC a (ne_of_notMem a lbraceC pre hpre_lb ha)),
      dropWhile_append_of_all _ g1 _
        (fun a ha => pred_true_of_ne lbraceC a (ne_of_notMem a lbraceC g1 hg1_lb ha)),
      List.cons_append]
    simp
  have hback : ((lbraceC :: (bt ++ (g2 ++ post))).reverse.dropWhile
      (fun c => !(c = rbraceC))).reverse = lbraceC :: bt := by
    rw [show (lbraceC :: (bt ++ (g2 ++ post))) = (lbraceC :: bt) ++ (g2 ++ post) by simp,
      List.reverse_append, List.reverse_append, List.append_assoc]
    rw [dropWhile_append_of_all _ post.reverse _
        (fun a ha => pred_true_of_ne rbraceC a
          (ne_of_notMem a rbraceC post hpost_rb (List.mem_reverse.mp ha))),
      dropWhile_append_of_all _ g2.reverse _
        (fun a ha => pred_true_of_ne rbraceC a
          (ne_of_notMem a rbraceC g2 hg2_rb (List.mem_reverse.mp ha))),
      hrev]
    rw [List.dropWhile_cons]
    simp only [show ((!(rbraceC = rbraceC : Prop) : Bool) : Bool) = false by simp]
    rw [if_neg (by simp), ← hrev, List.reverse_reverse]
  have hspan : salvageSpan (pre ++ (g1 ++ ((lbraceC :: bt) ++ (g2 ++ post))))
      = some (lbraceC :: bt) := by
    unfold salvageSpan
    simp only [hfrom]
    simp only [hback]
  refine ⟨?_, ?_, ?_⟩
  · unfold parse_json_main
    simp only [hdirect, hstrip, hspan, hbody]
  · unfold parse_json_main
    simp only [hbody]
  · unfold parse_json_ma
    simp only [hdirect]
    split
    · rfl
    · split
      · split <;> rfl
      · rfl

/-- Witness for C5 on the spec's scenario text
`"Sure! Heres the JSON: ```json {...} ``` done"`. -/
theorem c5_fence_stripping_witness :
    jsonLoads (strL "Sure! Heres the JSON: ```json\n\x7b\x22a\x22: 1\x7d\n``` done")
      = none
  ∧ parse_json_main (fun _ => strL "r")
      (strL "Sure! Heres the JSON: ```json\n\x7b\x22a\x22: 1\x7d\n``` done")
      = ⟨Json.obj [(strL "a", Json.num 1)], 0, true⟩
  ∧ parse_json_main (fun _ => strL "r") (strL "\x7b\x22a\x22: 1\x7d")
      = ⟨Json.obj [(strL "a", Json.num 1)], 0, false⟩ := by
  have h := c5_fence_stripping (fun _ => strL "r")
    (strL "Sure! Heres the JSON: ") (strL "\n") (strL "\x7b\x22a\x22: 1\x7d")
    (strL "\n") (strL " done") (Json.obj [(strL "a", Json.num 1)])
    (by decide) (by decide) (by decide) (by decide) (by decide)
    (by decide) (by decide) (by decide) (by decide) (by decide)
    rfl rfl rfl rfl
  exact ⟨rfl, h.1, h.2.1⟩

/-! ### C9 — the exported team-4 modules alias team 1's output -/

/-- C9: in the course document assembled at the end of a run — both the
`course_data` dict saved by `course_generator_summary` (line 893) and the
`team_outputs` dict built by `generate_expert_course` (line 1201) — the
`"team_output_4"` modules entry is assigned `state["team_output_1"]`, so
the exported team-4 modules equal team 1's output and the document is
independent of the actual `team_output_4` field. -/
theorem c9_team4_alias (s : State) (t4 : JDict) :
    jget (course_summary_modules s) (strL "team_output_4")
      = some (Json.obj s.team_output_1)
  ∧ jget (expert_course_team_outputs s) (strL "team_output_4")
      = some (Json.obj s.team_output_1)
  ∧ course_summary_data { s with team_output_4 := t4 } = course_summary_data s := by
  refine ⟨?_, ?_, rfl⟩ <;>
    simp [course_summary_modules, expert_course_team_outputs, jget, strL]

end CourseGen
